import Mathlib

set_option maxRecDepth 100000

/-!
Shallow embedding of the vector-index module of the repository
(rag_application/modules/vector_index_faiss.py), together with theorems
settling the specification claims about it.

Modelling conventions:
* Product identifiers, DataFrame index labels and FAISS numeric ids are `Int`.
* Embedding vectors are `List Int` (component values are abstract; only
  shapes, identities and the literal distance 0.0 matter to the claims, so
  float arithmetic is abstracted to integers, with 0.0 modelled as 0).
* Python exceptions are the `PyErr` inductive; an operation that can raise
  returns `Except PyErr _` when it never mutates state before raising, and
  `_ × Option PyErr` when a raise can leave a partially mutated state behind.
* External capabilities (the BERT tokenizer/model pair inside
  encode_text_to_embedding, pandas.read_parquet, and the trained FAISS
  index search) are parameters: an `EncodeFn` gives the outcome of one
  tokenizer+model batch (`none` = the batch raised), a `ReadParquetFn` the
  outcome of read_parquet, and an `AnnSearch` the (distances, ids) row the
  FAISS index returns for one query vector.  All state that the Python code
  itself maintains (products_df, embeddings_dict, _index contents) is
  modelled concretely.
* Python dicts are association lists in insertion order with unique keys;
  dict lookup is `List.lookup`, dict assignment is `dictInsert` (overwrite
  in place, else append), matching CPython semantics for unique keys.
-/

/-- Python exception values, tagged with the message the source raises. -/
inductive PyErr where
  | runtimeError (msg : String)
  | valueError (msg : String)
  | typeError (msg : String)
  | keyError (msg : String)
  | attributeError (msg : String)
  | indexError (msg : String)
  | fileNotFoundError (msg : String)
deriving DecidableEq

/-- The spec taxonomy (section 7) groups empty query, k at most 0 and
malformed argument types under ValidationError; the Python source realizes
these as ValueError and TypeError respectively. -/
def isValidationError : PyErr → Bool
  | PyErr.valueError _ => true
  | PyErr.typeError _ => true
  | _ => false

/-- An embedding vector; components abstracted to integers. -/
abbrev Embedding := List Int

/-- BERT-base dimension, hardcoded as expected_dim = 768 in the source. -/
def expected_dim : Nat := 768

/-- One row of products_df: the DataFrame index label plus the columns the
vector-index module reads and writes.  (The remaining columns, bullet
point, brand, color and locale, are only read by
search_and_generate_response, which no claim mentions.) -/
structure Product where
  label : Int
  product_id : Int
  product_title : String
  product_description : String
  combined_text : String
deriving DecidableEq

/-- Contents of the trained FAISS IVFPQ index: its vector dimension and the
(numeric id, vector) pairs inserted via add_with_ids, in insertion order. -/
structure FaissIndexData where
  dim : Nat
  entries : List (Int × Embedding)
deriving DecidableEq

/-- Values stored in embeddings_dict.  create_faiss_index and
update_embeddings_for_changed_products store plain vectors; search_index
stores the (None, None) pair returned by a failed search_by_product_id
lookup (modelled as junk), and those are the only writers. -/
inductive CacheVal where
  | vec (e : Embedding)
  | junk
deriving DecidableEq

/-- State of a VectorIndex instance: products_df (None until loaded),
the configured products_file and batch_size from init, embeddings_dict, and
the class-level _index (None until create_faiss_index ran). -/
structure VectorIndex where
  products_df : Option (List Product)
  products_file : Option String
  batch_size : Nat
  embeddings_dict : List (Int × CacheVal)
  index : Option FaissIndexData
deriving DecidableEq

/-- Outcome of running tokenizer+model on one batch of texts: the list of
row vectors of last_hidden_state[:, 0, :], or none when the library call
raises. -/
abbrev EncodeFn := List String → Option (List Embedding)

/-- Outcome of pandas.read_parquet on the configured file. -/
abbrev ReadParquetFn := Option String → Except PyErr (List Product)

/-- Search capability of the trained FAISS index: given the index contents,
one query vector and k, the first (and only) row of the returned distance
and id arrays.  FAISS search on a trained index does not raise for a
correct-dimension query; dimension mismatches are guarded at call sites. -/
abbrev AnnSearch := FaissIndexData → Embedding → Nat → List Int × List Int

/-- Python dict assignment d[k] = v: overwrite in place when the key is
present, append otherwise. -/
def dictInsert (d : List (Int × CacheVal)) (k : Int) (v : CacheVal) :
    List (Int × CacheVal) :=
  if (List.lookup k d).isSome then
    d.map (fun kv => if kv.1 = k then (k, v) else kv)
  else d ++ [(k, v)]

/-- Recursion core of chunkList: fuel bounds the number of chunks, the
list shrinks by a full batch each step. -/
def chunkListAux (bs : Nat) : Nat → List α → List (List α)
  | _, [] => []
  | 0, _ :: _ => []
  | Nat.succ fuel, x :: rest =>
    (x :: rest).take bs :: chunkListAux bs fuel ((x :: rest).drop bs)

/-- Batches of range(0, len(texts), batch_size): successive chunks of size
batch_size.  Python range raises for step 0; a zero batch size is modelled
as producing no batches (every state in this development has a positive
batch size, the source default being 32).  With a positive batch size a
fuel of xs.length is always enough. -/
def chunkList (bs : Nat) (xs : List α) : List (List α) :=
  if bs = 0 then [] else chunkListAux bs xs.length xs

/-- Python str.strip() of a query, as a character list: drop whitespace at
both ends. -/
def pyStrip (q : String) : List Char :=
  ((q.toList.dropWhile Char.isWhitespace).reverse.dropWhile
    Char.isWhitespace).reverse

/-- Python int(query): strip surrounding whitespace, optional sign, then
decimal digits.  (Underscore digit separators and non-ASCII digits, which
CPython also accepts, do not occur in this development.) -/
def digitsVal : List Char → Option Nat
  | [] => none
  | cs =>
    if cs.all Char.isDigit then
      some (cs.foldl (fun n c => 10 * n + (c.toNat - 48)) 0)
    else none

/-- Python int(query) on a string, none when int raises ValueError. -/
def pyInt (q : String) : Option Int :=
  match pyStrip q with
  | [] => none
  | '+' :: rest => (digitsVal rest).map (fun n => (n : Int))
  | '-' :: rest => (digitsVal rest).map (fun n => -(n : Int))
  | cs => (digitsVal cs).map (fun n => (n : Int))

deriving instance DecidableEq for Except

namespace VectorIndex

/-- VectorIndex.__init__ with the given products_file and batch_size. -/
def init (products_file : Option String) (batch_size : Nat) : VectorIndex :=
  { products_df := none
    products_file := products_file
    batch_size := batch_size
    embeddings_dict := []
    index := none }

/-- VectorIndex.load_processed_products.  pandas.read_parquet runs inside a
try whose except FileNotFoundError and except Exception arms only log, so
the call returns normally whatever happens; products_df is assigned only on
success. -/
def load_processed_products (readParquet : ReadParquetFn) (s : VectorIndex) :
    VectorIndex :=
  match readParquet s.products_file with
  | Except.ok df => { s with products_df := some df }
  | Except.error _ => s

/-- VectorIndex.encode_text_to_embedding.  Each batch runs inside a try:
a raising tokenizer/model call (encB = none) or a failed 768-dimension
check is caught, logged, and the batch is skipped; surviving batch rows are
appended in order.  The function itself never raises and its output can be
shorter than its input. -/
def encode_text_to_embedding (encB : EncodeFn) (batch_size : Nat)
    (texts : List String) : List Embedding :=
  (chunkList batch_size texts).foldl
    (fun acc batch_texts =>
      match batch_texts with
      | [] => acc
      | _ :: _ =>
        match encB batch_texts with
        | none => acc
        | some embs =>
          if embs.all (fun e => e.length = expected_dim) then acc ++ embs
          else acc)
    []

/-- VectorIndex.search_by_product_id.  Looks the product up in
embeddings_dict (KeyError caught, giving the (None, None) pair), then runs
a 1-nearest-neighbour FAISS search on the cached vector; I[0][0] equal to
-1 means no valid neighbour.  A junk cache value makes
np.array(embedding, dtype=float32) raise TypeError, a missing index makes
the attribute access raise, a wrong-dimension vector makes FAISS raise, and
an empty id row makes I[0][0] raise IndexError; none of these are caught
here. -/
def search_by_product_id (ann : AnnSearch) (s : VectorIndex) (pid : Int) :
    Except PyErr (Option Embedding × Option Int) :=
  match List.lookup pid s.embeddings_dict with
  | none => Except.ok (none, none)
  | some CacheVal.junk =>
    Except.error (PyErr.typeError
      "float argument must be a string or a number, not NoneType")
  | some (CacheVal.vec e) =>
    match s.index with
    | none =>
      Except.error (PyErr.attributeError
        "NoneType object has no attribute search")
    | some idx =>
      if e.length = idx.dim then
        match ((ann idx e 1).2).head? with
        | none => Except.error (PyErr.indexError "index 0 is out of bounds")
        | some i =>
          if i = -1 then Except.ok (some e, none)
          else Except.ok (some e, some i)
      else
        Except.error (PyErr.runtimeError
          "FAISS search called with a vector of the wrong dimension")

/-- VectorIndex.search_index.  Validation order follows the source: index
initialized, then non-blank query, then k > 0 (the isinstance(k, int) half
of that check is enforced by the type of k).  The FAISS branch runs inside
a try whose failures (encode yielding an empty or wrong-dimension query
matrix) leave the FAISS results at None.  The direct branch converts the
query with int() (ValueError caught), calls search_by_product_id - whose
returned pair is never None, so the zero-distance direct entry (0.0, -1)
is recorded whenever int() succeeded and search_by_product_id did not
raise - and, when the id was absent from embeddings_dict, stores that
(None, None) pair into embeddings_dict.  Direct entries precede the FAISS
row in the combined output.  The nprobe assignment tunes the search and is
not part of the index contents. -/
def search_index (ann : AnnSearch) (encB : EncodeFn) (s : VectorIndex)
    (query : String) (k : Int) :
    Except PyErr ((List Int × List Int) × VectorIndex) :=
  match s.index with
  | none => Except.error (PyErr.runtimeError "Index is not initialized.")
  | some idx =>
    if pyStrip query = [] then
      Except.error (PyErr.valueError "Query string cannot be empty.")
    else if k ≤ 0 then
      Except.error (PyErr.typeError
        "Search radius must be an integer greater than 0.")
    else
      let qv := encode_text_to_embedding encB s.batch_size [query]
      let faissRes : Option (List Int × List Int) :=
        match qv with
        | [] => none
        | e :: rest =>
          if (e :: rest).all (fun v => v.length = idx.dim) then
            some (ann idx e k.toNat)
          else none
      match pyInt query with
      | none =>
        let fr := faissRes.getD ([], [])
        Except.ok ((fr.1, fr.2), s)
      | some pid =>
        match search_by_product_id ann s pid with
        | Except.error e => Except.error e
        | Except.ok _dse =>
          let s' :=
            if (List.lookup pid s.embeddings_dict).isNone then
              { s with embeddings_dict := s.embeddings_dict ++ [(pid, CacheVal.junk)] }
            else s
          let fr := faissRes.getD ([], [])
          Except.ok ((0 :: fr.1, -1 :: fr.2), s')

/-- VectorIndex.find_changed_products: the set of ids keyed in
new_descriptions whose proposed description differs from
old_descriptions.get(id). -/
def find_changed_products (old new : List (Int × String)) : List Int :=
  (new.filter (fun p => decide (List.lookup p.1 old ≠ some p.2))).map Prod.fst

/-- VectorIndex.remove_product_by_id: raises when the id is absent from the
product_id column, otherwise drops the matching rows from products_df.
Neither embeddings_dict nor the FAISS index is touched. -/
def remove_product_by_id (s : VectorIndex) (pid : Int) :
    Except PyErr VectorIndex :=
  match s.products_df with
  | none =>
    Except.error (PyErr.typeError "NoneType object is not subscriptable")
  | some df =>
    if df.any (fun p => p.product_id = pid) then
      Except.ok { s with
        products_df := some (df.filter (fun p => ¬ p.product_id = pid)) }
    else
      Except.error (PyErr.valueError
        ("Product ID " ++ toString pid ++ " not found."))

/-- Rows of products_df rewritten by one update: every row whose product_id
matches gets the new description, and combined_text is rebuilt from the
product_title of the first matching row (the .values[0] access) and the
new description. -/
def rewriteRows (df : List Product) (pid : Int) (desc : String) :
    List Product :=
  match df.find? (fun p => p.product_id = pid) with
  | none => df
  | some first =>
    df.map (fun p =>
      if p.product_id = pid then
        { p with
          product_description := desc
          combined_text := first.product_title ++ " " ++ desc }
      else p)

/-- Description-update loop of update_product_descriptions, iterating the
updates dict in insertion order: a member whose id is absent from the
product_id column raises KeyError on the spot, leaving the rewrites of the
earlier members in place. -/
def applyDescriptionUpdates (df : List Product) :
    List (Int × String) → List Product × Option PyErr
  | [] => (df, none)
  | (pid, desc) :: rest =>
    if df.any (fun p => p.product_id = pid) then
      applyDescriptionUpdates (rewriteRows df pid desc) rest
    else
      (df, some (PyErr.keyError
        ("Product ID " ++ toString pid ++ " not found in the DataFrame.")))

/-- VectorIndex.update_embeddings_for_changed_products: for each changed
id, read title and description with label-based .at (KeyError when no row
has that label, re-raised as RuntimeError), re-encode the combined text
(an empty encode result makes the [0] access raise IndexError, caught and
re-raised as RuntimeError, as are a missing index and a FAISS dimension
mismatch), add the new vector to the FAISS index keyed by the product id
itself, and overwrite the cache entry.  A failure keeps the mutations of
the earlier ids. -/
def update_embeddings_for_changed_products (encB : EncodeFn)
    (s : VectorIndex) : List Int → VectorIndex × Option PyErr
  | [] => (s, none)
  | pid :: rest =>
    match (s.products_df.getD []).find? (fun p => p.label = pid) with
    | none =>
      (s, some (PyErr.runtimeError
        ("Product ID " ++ toString pid ++ " not found in the DataFrame.")))
    | some row =>
      let text := row.product_title ++ " " ++ row.product_description
      match (encode_text_to_embedding encB s.batch_size [text]).head? with
      | none =>
        (s, some (PyErr.runtimeError
          ("Error updating embeddings for product ID " ++ toString pid)))
      | some emb =>
        match s.index with
        | none =>
          (s, some (PyErr.runtimeError
            ("Error updating embeddings for product ID " ++ toString pid)))
        | some idx =>
          if emb.length = idx.dim then
            update_embeddings_for_changed_products encB
              { s with
                index := some { idx with entries := idx.entries ++ [(pid, emb)] }
                embeddings_dict := dictInsert s.embeddings_dict pid (CacheVal.vec emb) }
              rest
          else
            (s, some (PyErr.runtimeError
              ("Error updating embeddings for product ID " ++ toString pid)))

/-- VectorIndex.update_product_descriptions: computes the changed set by
comparing updates against the old descriptions keyed by DataFrame index
label (the iterrows keys), rewrites descriptions member by member (a
missing product id raises KeyError mid-loop), and only if every member
succeeded and the changed set is non-empty regenerates embeddings. -/
def update_product_descriptions (encB : EncodeFn) (s : VectorIndex)
    (updates : List (Int × String)) : VectorIndex × Option PyErr :=
  match s.products_df with
  | none =>
    (s, some (PyErr.attributeError
      "NoneType object has no attribute iterrows"))
  | some df =>
    let old := df.map (fun p => (p.label, p.product_description))
    let changed := find_changed_products old updates
    match applyDescriptionUpdates df updates with
    | (df', some e) => ({ s with products_df := some df' }, some e)
    | (df', none) =>
      let s' := { s with products_df := some df' }
      if changed.isEmpty then (s', none)
      else update_embeddings_for_changed_products encB s' changed

end VectorIndex

/-!
Concrete fixtures: a two-product corpus with identifiers 1 and 2, its built
index state, and trivial encoder / ANN-search capabilities used to evaluate
the model on concrete inputs.
-/

/-- Embedding of product 1 in the fixtures (BERT dimension 768). -/
def vOne : Embedding := List.replicate 768 1

/-- Embedding of product 2 in the fixtures. -/
def vTwo : Embedding := List.replicate 768 2

/-- FAISS search capability returning k hits with distance 0 and numeric
id 0, standing for a trained index whose nearest neighbour is entry 0. -/
def annZ : AnnSearch := fun _ _ k => (List.replicate k 0, List.replicate k 0)

/-- Encoder capability whose tokenizer/model call always raises; search
paths that do not depend on the FAISS branch are unaffected. -/
def encNone : EncodeFn := fun _ => none

/-- Corpus row of product 1 (DataFrame label 0). -/
def rowOne : Product := ⟨0, 1, "T1", "D1", "T1 D1"⟩

/-- Corpus row of product 2 (DataFrame label 1). -/
def rowTwo : Product := ⟨1, 2, "T2", "D2", "T2 D2"⟩

/-- Row of product 1 after updating its description to new. -/
def rowOneNew : Product :=
  { rowOne with product_description := "new", combined_text := "T1 new" }

/-- Built index state over the two-product corpus: both products loaded,
both embeddings cached, the FAISS index trained and populated with dense
numeric ids 0 and 1 assigned by position. -/
def sBuilt : VectorIndex :=
  { products_df := some [rowOne, rowTwo]
    products_file := some "processed_products.parquet"
    batch_size := 32
    embeddings_dict := [(1, CacheVal.vec vOne), (2, CacheVal.vec vTwo)]
    index := some ⟨768, [(0, vOne), (1, vTwo)]⟩ }

/-- State after remove_product_by_id 1 on sBuilt: only the DataFrame row is
gone; embeddings_dict and the FAISS index still hold product 1. -/
def sRemoved : VectorIndex := { sBuilt with products_df := some [rowTwo] }

/-- Encoder that succeeds on the batch of "a" and raises on the batch of
"b", exhibiting a partial-batch failure under batch size 1. -/
def encFailsB : EncodeFn := fun b => if b = ["b"] then none else some [vOne]

/-- One-product state used by witnesses of the batch-update theorems. -/
def sOne : VectorIndex :=
  { products_df := some [rowOne]
    products_file := some "processed_products.parquet"
    batch_size := 32
    embeddings_dict := [(1, CacheVal.vec vOne)]
    index := some ⟨768, [(0, vOne)]⟩ }

/-- Claim C1: after remove_product_by_id(1) on the built two-product index, a
search for the query "1" with k = 1 still returns the zero-distance exact
match entry (distance 0, sentinel id -1) synthesized by the exact-id lookup
path, because the removal dropped only the DataFrame row and product 1 is
still cached in embeddings_dict; the claim says a removed identifier is
never returned by any subsequent search, including via the exact-id path.
This contradicts the function's own log line, which reports the product as
removed from DataFrame and index. -/
theorem removed_id_still_surfaced_by_search :
    VectorIndex.remove_product_by_id sBuilt 1 = Except.ok sRemoved
    ∧ VectorIndex.search_index annZ encNone sRemoved "1" 1 =
        Except.ok (([0], [-1]), sRemoved)
    ∧ List.lookup 1 sRemoved.embeddings_dict = some (CacheVal.vec vOne) := by
  refine ⟨by decide, by decide, by decide⟩

/-- Claim C2: encode_text_to_embedding with batch size 1 on the two texts "a" and
"b", where the second batch raises inside the tokenizer/model call, returns
the single embedding of the first batch and no error: the output is
silently shorter than the input, against the claim that a batch failure
must fail the whole encode call. -/
theorem batch_failure_shrinks_encode_output :
    VectorIndex.encode_text_to_embedding encFailsB 1 ["a", "b"] = [vOne]
    ∧ (VectorIndex.encode_text_to_embedding encFailsB 1 ["a", "b"]).length <
        (["a", "b"] : List String).length := by
  refine ⟨by decide, by decide⟩

/-- Claim C4: on the built index, the query "5" parses as an integer whose
identifier is absent from embeddings_dict, yet search_index still prepends
the zero-distance exact-match entry (0, -1) and stores the failed-lookup
pair under key 5, because the (embedding, index) pair returned by
search_by_product_id is a tuple and therefore never None, making the
availability check vacuous; the claim says no exact match is synthesized
for identifiers absent from the cache. -/
theorem absent_id_still_gets_exact_match :
    List.lookup 5 sBuilt.embeddings_dict = none
    ∧ VectorIndex.search_index annZ encNone sBuilt "5" 1 =
        Except.ok (([0], [-1]),
          { sBuilt with
            embeddings_dict := sBuilt.embeddings_dict ++ [(5, CacheVal.junk)] }) := by
  refine ⟨by decide, by decide⟩

/-- Claim C6: when pandas.read_parquet raises FileNotFoundError for the missing
source, load_processed_products catches it, logs, and returns normally with
products_df still unloaded (None); the claim says the call fails with a
NotFoundError that propagates to the caller. -/
theorem missing_file_swallowed_by_loader :
    VectorIndex.load_processed_products
        (fun _ => Except.error (PyErr.fileNotFoundError
          "No such file or directory: missing.parquet"))
        (VectorIndex.init (some "missing.parquet") 32) =
      VectorIndex.init (some "missing.parquet") 32
    ∧ (VectorIndex.init (some "missing.parquet") 32).products_df = none := by
  refine ⟨by decide, by decide⟩

/-- Claim C7: search_index is not read-only: on the built index, the query "9"
(an integer id absent from embeddings_dict) makes the direct-search branch
store the failed-lookup pair under key 9, so the Embedding Cache differs
before and after the call; the claim says cache and index contents are
identical before and after every search.  (The FAISS index contents are
unchanged; the mutation is in the cache.) -/
theorem search_mutates_embedding_cache :
    VectorIndex.search_index annZ encNone sBuilt "9" 2 =
        Except.ok (([0], [-1]),
          { sBuilt with
            embeddings_dict := sBuilt.embeddings_dict ++ [(9, CacheVal.junk)] })
    ∧ sBuilt.embeddings_dict ++ [(9, CacheVal.junk)] ≠ sBuilt.embeddings_dict := by
  refine ⟨by decide, by decide⟩

/-- Helper: a query that int() converts successfully is not blank, because
pyInt rejects an empty stripped character list. -/
theorem pyInt_some_not_blank (q : String) (x : Int) (hq : pyInt q = some x) :
    pyStrip q ≠ [] := by
  intro h
  unfold pyInt at hq
  rw [h] at hq
  exact Option.noConfusion hq

/-- Claim C8, amended: whenever the index is initialized, search_index on an
empty or whitespace-only query fails with the ValueError carrying the exact
message of the source, regardless of k and of the rest of the state; this
error is a ValidationError in the taxonomy of the spec.  (The original
claim quantified over every state of the index; the uninitialized state is
the exception, settled by the counterexample below.) -/
theorem blank_query_validation_error_on_initialized_index
    (ann : AnnSearch) (encB : EncodeFn) (s : VectorIndex)
    (idx : FaissIndexData) (q : String) (k : Int)
    (hidx : s.index = some idx) (hq : pyStrip q = []) :
    VectorIndex.search_index ann encB s q k =
        Except.error (PyErr.valueError "Query string cannot be empty.")
    ∧ isValidationError (PyErr.valueError "Query string cannot be empty.") =
        true := by
  constructor
  · unfold VectorIndex.search_index
    rw [hidx]
    simp [hq]
  · rfl

/-- Witness for the amended C8 theorem: the built two-product index and the
whitespace-only query, at k = 3. -/
theorem blank_query_validation_error_witness :
    VectorIndex.search_index annZ encNone sBuilt "   " 3 =
      Except.error (PyErr.valueError "Query string cannot be empty.") :=
  (blank_query_validation_error_on_initialized_index annZ encNone sBuilt
    ⟨768, [(0, vOne), (1, vTwo)]⟩ "   " 3 rfl (by decide)).1

/-- Claim C9: on every initialized index, every non-blank query and every k at
most 0, search_index fails with the TypeError carrying the exact message of
the source; the spec taxonomy (section 7) classes this malformed-argument
failure as a ValidationError. -/
theorem nonpositive_k_validation_error
    (ann : AnnSearch) (encB : EncodeFn) (s : VectorIndex)
    (idx : FaissIndexData) (q : String) (k : Int)
    (hidx : s.index = some idx) (hq : pyStrip q ≠ []) (hk : k ≤ 0) :
    VectorIndex.search_index ann encB s q k =
        Except.error (PyErr.typeError
          "Search radius must be an integer greater than 0.")
    ∧ isValidationError (PyErr.typeError
        "Search radius must be an integer greater than 0.") = true := by
  constructor
  · unfold VectorIndex.search_index
    rw [hidx]
    simp [hq, hk]
  · rfl

/-- Witness for the C9 theorem: the built two-product index, the non-blank
query "drill", and k = 0. -/
theorem nonpositive_k_validation_error_witness :
    VectorIndex.search_index annZ encNone sBuilt "drill" 0 =
      Except.error (PyErr.typeError
        "Search radius must be an integer greater than 0.") :=
  (nonpositive_k_validation_error annZ encNone sBuilt
    ⟨768, [(0, vOne), (1, vTwo)]⟩ "drill" 0 rfl (by decide) (by decide)).1

/-- Claim C8, counterexample: in the uninitialized state the very same call
search("", 5) fails with the RuntimeError of the initialization check, not
with the ValidationError the claim requires for every state of the index,
because the source checks the index before the query. -/
theorem blank_query_on_uninitialized_index_not_validation_error :
    VectorIndex.search_index annZ encNone (VectorIndex.init none 32) "" 5 =
        Except.error (PyErr.runtimeError "Index is not initialized.")
    ∧ PyErr.runtimeError "Index is not initialized." ≠
        PyErr.valueError "Query string cannot be empty."
    ∧ isValidationError (PyErr.runtimeError "Index is not initialized.") =
        false := by
  refine ⟨by decide, by decide, rfl⟩

/-- Claim C3, counterexample: on the built two-product index, identifier 1 is
present in the cache and search("1", 1) does return a zero-distance first
result, but the identifier slot of that first result is the sentinel -1,
not the queried identifier 1 itself, which the claim requires. -/
theorem first_result_is_sentinel_not_the_id :
    List.lookup 1 sBuilt.embeddings_dict = some (CacheVal.vec vOne)
    ∧ VectorIndex.search_index annZ encNone sBuilt "1" 1 =
        Except.ok (([0], [-1]), sBuilt)
    ∧ (-1 : Int) ≠ 1 := by
  refine ⟨by decide, by decide, by decide⟩

/-- Claim C3, amended: on every initialized index, searching with a query that
int() converts to an identifier x whose cache entry is a vector of the
index dimension yields, for every k > 0, a first result with distance 0
whose identifier slot is the sentinel -1 marking a direct match (not x
itself), and leaves the state unchanged; the hypothesis on the ANN row
excludes the out-of-bounds access the source would make if the FAISS
1-nearest-neighbour id row were empty. -/
theorem search_existing_id_zero_distance_sentinel_first
    (ann : AnnSearch) (encB : EncodeFn) (s : VectorIndex)
    (idx : FaissIndexData) (x : Int) (e : Embedding) (q : String) (k : Int)
    (hidx : s.index = some idx)
    (hq : pyInt q = some x)
    (hk : 0 < k)
    (he : List.lookup x s.embeddings_dict = some (CacheVal.vec e))
    (hdim : e.length = idx.dim)
    (hrow : ((ann idx e 1).2) ≠ []) :
    ∃ fd fi, VectorIndex.search_index ann encB s q k =
        Except.ok ((0 :: fd, -1 :: fi), s) := by
  have hblank := pyInt_some_not_blank q x hq
  have hk' : ¬ k ≤ 0 := by omega
  obtain ⟨i, t, h2⟩ : ∃ i t, (ann idx e 1).2 = i :: t := by
    cases hc : (ann idx e 1).2 with
    | nil => exact absurd hc hrow
    | cons i t => exact ⟨i, t, rfl⟩
  have hsb : ∃ r, VectorIndex.search_by_product_id ann s x = Except.ok r := by
    unfold VectorIndex.search_by_product_id
    rw [he, hidx]
    simp only [hdim, h2]
    by_cases hi : i = -1 <;> simp [hi]
  obtain ⟨r, hsbr⟩ := hsb
  unfold VectorIndex.search_index
  rw [hidx]
  simp [hblank, hk', hq, hsbr, he]

/-- Witness for the amended C3 theorem: identifier 2 on the built
two-product index, queried as "2" with k = 2. -/
theorem search_existing_id_sentinel_witness :
    ∃ fd fi, VectorIndex.search_index annZ encNone sBuilt "2" 2 =
        Except.ok ((0 :: fd, -1 :: fi), sBuilt) :=
  search_existing_id_zero_distance_sentinel_first annZ encNone sBuilt
    ⟨768, [(0, vOne), (1, vTwo)]⟩ 2 vTwo "2" 2 rfl (by decide) (by decide)
    (by decide) (by decide) (by decide)

/-- Helper: rewriting the rows of one update never changes the set of
product ids present in the table. -/
theorem rewriteRows_preserves_ids (df : List Product) (pid : Int)
    (desc : String) (p' : Product)
    (hp' : p' ∈ VectorIndex.rewriteRows df pid desc) :
    ∃ p ∈ df, p'.product_id = p.product_id := by
  unfold VectorIndex.rewriteRows at hp'
  cases hf : df.find? (fun p => decide (p.product_id = pid)) with
  | none => rw [hf] at hp'; exact ⟨p', hp', rfl⟩
  | some first =>
    rw [hf] at hp'
    simp only [List.mem_map] at hp'
    obtain ⟨p, hp, rfl⟩ := hp'
    by_cases hid : p.product_id = pid
    · simp only [if_pos hid]
      exact ⟨p, hp, rfl⟩
    · simp only [if_neg hid]
      exact ⟨p, hp, rfl⟩

/-- Helper: when some update in the batch names a product id absent from
the table, the description-update loop raises KeyError at some member. -/
theorem applyDescriptionUpdates_missing_id (df : List Product)
    (updates : List (Int × String))
    (hbad : ∃ u ∈ updates, ∀ p ∈ df, p.product_id ≠ u.1) :
    ∃ df' m, VectorIndex.applyDescriptionUpdates df updates =
      (df', some (PyErr.keyError m)) := by
  induction updates generalizing df with
  | nil =>
    obtain ⟨u, hu, _⟩ := hbad
    cases hu
  | cons ud rest ih =>
    obtain ⟨pid, desc⟩ := ud
    unfold VectorIndex.applyDescriptionUpdates
    by_cases hany : df.any (fun p => decide (p.product_id = pid)) = true
    · rw [if_pos hany]
      apply ih
      obtain ⟨u, hu, hnp⟩ := hbad
      rcases List.mem_cons.mp hu with heq | htl
      · exfalso
        rw [List.any_eq_true] at hany
        obtain ⟨p, hp, hpe⟩ := hany
        rw [decide_eq_true_eq] at hpe
        subst heq
        exact hnp p hp hpe
      · refine ⟨u, htl, fun p' hp' => ?_⟩
        obtain ⟨p, hp, heq⟩ := rewriteRows_preserves_ids df pid desc p' hp'
        rw [heq]
        exact hnp p hp
    · rw [if_neg hany]
      exact ⟨df, _, rfl⟩

/-- Claim C5, amended: a batch containing an identifier absent from the table
fails with a KeyError for a missing identifier (the first one reached in
the insertion order of the updates), and on that failing path the
Embedding Cache and the ANN structure are never touched, because the
KeyError is raised before embedding regeneration runs; the table however
keeps the rewrites of the batch members processed before the failure, so
those members are left with a new description against an unchanged
cache/ANN embedding (the inconsistency exhibited by the counterexample). -/
theorem update_with_missing_id_fails_cache_and_ann_untouched
    (encB : EncodeFn) (s : VectorIndex) (df : List Product)
    (updates : List (Int × String))
    (hdf : s.products_df = some df)
    (hbad : ∃ u ∈ updates, ∀ p ∈ df, p.product_id ≠ u.1) :
    ∃ m, (VectorIndex.update_product_descriptions encB s updates).2 =
          some (PyErr.keyError m)
      ∧ (VectorIndex.update_product_descriptions encB s updates).1.embeddings_dict =
          s.embeddings_dict
      ∧ (VectorIndex.update_product_descriptions encB s updates).1.index =
          s.index := by
  obtain ⟨df', m, hap⟩ := applyDescriptionUpdates_missing_id df updates hbad
  unfold VectorIndex.update_product_descriptions
  rw [hdf]
  simp [hap]

/-- Witness for the amended C5 theorem: the one-product state and a batch
consisting of the single unknown identifier 3. -/
theorem update_with_missing_id_witness :
    ∃ m, (VectorIndex.update_product_descriptions encNone sOne
            [(3, "z")]).2 = some (PyErr.keyError m)
      ∧ (VectorIndex.update_product_descriptions encNone sOne
            [(3, "z")]).1.embeddings_dict = sOne.embeddings_dict
      ∧ (VectorIndex.update_product_descriptions encNone sOne
            [(3, "z")]).1.index = sOne.index :=
  update_with_missing_id_fails_cache_and_ann_untouched encNone sOne [rowOne]
    [(3, "z")] rfl ⟨(3, "z"), by decide, by decide⟩

/-- State left behind by the failing batch of the C5 counterexample:
product 1 rewritten in the table, everything else untouched. -/
def sHalfUpdated : VectorIndex :=
  { sBuilt with products_df := some [rowOneNew, rowTwo] }

/-- Claim C5, counterexample: on the built two-product index, the batch
first updating product 1 and then naming the unknown identifier 99 raises
KeyError for 99, yet leaves product 1 with its description rewritten to
new in the table while embeddings_dict (and the FAISS index) still hold the
embedding of the old description: a batch member is left table-rewritten
with an unchanged cache/ANN embedding, which the claim forbids. -/
theorem update_failure_leaves_inconsistent_member :
    VectorIndex.update_product_descriptions encNone sBuilt
        [(1, "new"), (99, "x")] =
      (sHalfUpdated,
        some (PyErr.keyError "Product ID 99 not found in the DataFrame."))
    ∧ rowOneNew.product_description = "new"
    ∧ sHalfUpdated.embeddings_dict = sBuilt.embeddings_dict
    ∧ sHalfUpdated.index = sBuilt.index := by
  refine ⟨by decide, by decide, by decide, by decide⟩

/-- Helper: a key that appears in an association list has a non-none
lookup. -/
theorem lookup_ne_none_of_mem (l : List (Int × String)) (pid : Int)
    (d : String) (h : (pid, d) ∈ l) : List.lookup pid l ≠ none := by
  induction l with
  | nil => cases h
  | cons hd tl ih =>
    obtain ⟨a, b⟩ := hd
    rw [List.lookup_cons]
    by_cases hab : pid = a
    · subst hab
      simp
    · have hf : (pid == a) = false := by simp [hab]
      rw [hf]
      show List.lookup pid tl ≠ none
      apply ih
      rcases List.mem_cons.mp h with heq | htl
      · exact absurd (congrArg Prod.fst heq) hab
      · exact htl

/-- Helper: over an association list with distinct keys (a Python dict),
lookup returning a value is the same as the pair being a member. -/
theorem lookup_eq_some_iff_mem (l : List (Int × String))
    (hnd : (l.map Prod.fst).Nodup) (pid : Int) (d : String) :
    List.lookup pid l = some d ↔ (pid, d) ∈ l := by
  induction l with
  | nil => simp
  | cons hd tl ih =>
    obtain ⟨a, b⟩ := hd
    simp only [List.map_cons, List.nodup_cons] at hnd
    obtain ⟨hna, hnd'⟩ := hnd
    rw [List.lookup_cons]
    by_cases hab : pid = a
    · subst hab
      have ht : (pid == pid) = true := by simp
      rw [ht]
      show some b = some d ↔ (pid, d) ∈ (pid, b) :: tl
      constructor
      · intro h
        injection h with hbd
        exact List.mem_cons.mpr (Or.inl (by rw [hbd]))
      · intro h
        rcases List.mem_cons.mp h with heq | htl
        · have hbd : d = b := congrArg Prod.snd heq
          rw [hbd]
        · exact absurd (List.mem_map.mpr ⟨(pid, d), htl, rfl⟩) hna
    · have hf : (pid == a) = false := by simp [hab]
      rw [hf]
      show List.lookup pid tl = some d ↔ (pid, d) ∈ (a, b) :: tl
      rw [ih hnd']
      constructor
      · intro h
        exact List.mem_cons.mpr (Or.inr h)
      · intro h
        rcases List.mem_cons.mp h with heq | htl
        · exact absurd (congrArg Prod.fst heq) hab
        · exact htl

/-- Claim C10: find_changed_products returns exactly the identifiers keyed in the
new mapping whose proposed description differs from the old one; in
particular an identifier keyed in new but absent from old (lookup none,
which differs from every proposed string) is always reported, and an
identifier not keyed in new is never reported.  The hypothesis states that
new is a genuine mapping (distinct keys), as a Python dict always is. -/
theorem find_changed_products_exact (old new : List (Int × String))
    (hnd : (new.map Prod.fst).Nodup) :
    (∀ pid : Int, pid ∈ VectorIndex.find_changed_products old new ↔
       ∃ d, List.lookup pid new = some d ∧ List.lookup pid old ≠ some d)
    ∧ (∀ pid : Int, List.lookup pid new ≠ none → List.lookup pid old = none →
        pid ∈ VectorIndex.find_changed_products old new)
    ∧ (∀ pid : Int, List.lookup pid new = none →
        pid ∉ VectorIndex.find_changed_products old new) := by
  have h2 : ∀ pid : Int, pid ∈ VectorIndex.find_changed_products old new ↔
      ∃ d, List.lookup pid new = some d ∧ List.lookup pid old ≠ some d := by
    intro pid
    have h1 : pid ∈ VectorIndex.find_changed_products old new ↔
        ∃ d, (pid, d) ∈ new ∧ List.lookup pid old ≠ some d := by
      unfold VectorIndex.find_changed_products
      simp only [List.mem_map, List.mem_filter, decide_eq_true_eq]
      constructor
      · rintro ⟨⟨p1, p2⟩, ⟨hmem, hq⟩, rfl⟩
        exact ⟨p2, hmem, hq⟩
      · rintro ⟨d, hmem, hq⟩
        exact ⟨(pid, d), ⟨hmem, hq⟩, rfl⟩
    rw [h1]
    constructor
    · rintro ⟨d, hmem, hq⟩
      exact ⟨d, (lookup_eq_some_iff_mem new hnd pid d).mpr hmem, hq⟩
    · rintro ⟨d, hlk, hq⟩
      exact ⟨d, (lookup_eq_some_iff_mem new hnd pid d).mp hlk, hq⟩
  refine ⟨h2, ?_, ?_⟩
  · intro pid hnew hold
    obtain ⟨d, hd⟩ := Option.ne_none_iff_exists.mp hnew
    refine (h2 pid).mpr ⟨d, hd.symm, ?_⟩
    rw [hold]
    exact fun h => Option.noConfusion h
  · intro pid hnone hmem
    obtain ⟨d, hlk, _⟩ := (h2 pid).mp hmem
    rw [hnone] at hlk
    exact Option.noConfusion hlk

/-- Witness for the C10 theorem: old maps 1 to a; new maps 1 to b and adds
2; identifier 2, absent from old, is reported as changed. -/
theorem find_changed_products_exact_witness :
    (([((1 : Int), "b"), (2, "c")].map Prod.fst).Nodup)
    ∧ 2 ∈ VectorIndex.find_changed_products [(1, "a")] [(1, "b"), (2, "c")] :=
  ⟨by decide,
    ((find_changed_products_exact [(1, "a")] [(1, "b"), (2, "c")]
        (by decide)).1 2).mpr ⟨"c", by decide, by decide⟩⟩
